import Mathlib

/-!
Verification of the `vpcctl` VPC lifecycle tool (`src/vpcctl.py`).

The Python source is shallowly embedded below.  Machine-level effects are
made explicit:

* the OS process runner (`subprocess.run`) is modelled by an `Executor`,
  a function from the command string to the process outcome
  (`ProcResult`: exit code, stdout, stderr);
* the per-user configuration directory holding one `<name>.json` file per
  VPC is modelled by a `Store`, an association list keyed by VPC name;
* Python dictionaries (subnet maps, JSON records) are association lists
  that keep insertion order, with assignment replacing in place;
* Python exceptions become `Except VpcError`;
* Python string operations are re-implemented structurally over `List Char`
  so that every definition evaluates by kernel reduction.
-/

namespace Vpcctl

/-! ## Character-list string helpers (Python `str` operations) -/

def isWsChar (c : Char) : Bool :=
  c = ' ' || c = '\t' || c = '\n' || c = '\r'

/-- Python `s.split(sep)` for a single-character separator. -/
def splitOnChar (c : Char) : List Char → List (List Char)
  | [] => [[]]
  | x :: xs =>
    match splitOnChar c xs with
    | [] => [[]]
    | g :: gs => if x = c then [] :: g :: gs else (x :: g) :: gs

/-- Longest digit-free... rather: the leading run of non-whitespace characters. -/
def takeNonWs : List Char → List Char
  | [] => []
  | c :: cs => if isWsChar c then [] else c :: takeNonWs cs

/-- Python `s.split()[0] if s.strip() else ""`: first whitespace-delimited token. -/
def firstToken : List Char → List Char
  | [] => []
  | c :: cs => if isWsChar c then firstToken cs else takeNonWs (c :: cs)

def dropWsLead : List Char → List Char
  | [] => []
  | c :: cs => if isWsChar c then dropWsLead cs else c :: cs

/-- Python `s.strip()`. -/
def stripWs (l : List Char) : List Char :=
  (dropWsLead (dropWsLead l.reverse).reverse)

/-- Python `s[:n]` (first `n` characters). -/
def strTake (s : String) (n : Nat) : String :=
  String.mk (s.data.take n)

/-- Python `s.upper()`. -/
def strUpper (s : String) : String :=
  String.mk (s.data.map Char.toUpper)

/-- Boolean prefix test on character lists. -/
def listStarts : List Char → List Char → Bool
  | [], _ => true
  | _ :: _, [] => false
  | a :: as, b :: bs => if a = b then listStarts as bs else false

/-- Boolean infix (substring) test on character lists. -/
def listInfixB (pat : List Char) : List Char → Bool
  | [] => pat.isEmpty
  | b :: bs => listStarts pat (b :: bs) || listInfixB pat bs

/-- Python `pat in hay` on strings. -/
def containsStr (hay pat : String) : Bool :=
  listInfixB pat.data hay.data

/-- `True` iff `s` begins with `pat`. -/
def strStarts (pat s : String) : Bool :=
  listStarts pat.data s.data

def digitChar (n : Nat) : Char :=
  Char.ofNat (48 + n)

def natDigits : Nat → Nat → List Char
  | 0, _ => []
  | fuel + 1, n => if n < 10 then [digitChar n] else natDigits fuel (n / 10) ++ [digitChar (n % 10)]

/-- Python `str(n)` for a natural number. -/
def natToStr (n : Nat) : String :=
  String.mk (natDigits (n + 1) n)

def digitsToNatAux : List Char → Nat → Option Nat
  | [], acc => some acc
  | c :: cs, acc => if c.isDigit then digitsToNatAux cs (acc * 10 + (c.toNat - 48)) else none

/-- Parse a non-empty all-decimal-digit character list. -/
def digitsToNat : List Char → Option Nat
  | [] => none
  | l => digitsToNatAux l 0

/-! ## IPUtils (`class IPUtils`, src lines 18-31)

`ipaddress.IPv4Network(cidr, strict=False)` is modelled for the dotted-quad
`a.b.c.d` / `a.b.c.d/len` input forms used by the tool: four decimal octets
(0-255, no leading zeros), an optional decimal prefix length 0-32, and with
`strict=False` the host bits are masked off to obtain the network address.
Any other input makes the constructor raise, which the spec calls
`InvalidRangeError`. -/

/-- One dotted-quad octet: decimal, no leading zeros, at most 255. -/
def parseOctet (l : List Char) : Option Nat :=
  match l with
  | [] => none
  | ['0'] => some 0
  | '0' :: _ :: _ => none
  | _ =>
    match digitsToNat l with
    | none => none
    | some n => if n ≤ 255 then some n else none

def parseIPv4Addr (l : List Char) : Option Nat :=
  match (splitOnChar '.' l).map parseOctet with
  | [some a, some b, some c, some d] => some (((a * 256 + b) * 256 + c) * 256 + d)
  | _ => none

/-- The prefix length: decimal, at most 32. -/
def parsePlen (l : List Char) : Option Nat :=
  match digitsToNat l with
  | none => none
  | some n => if n ≤ 32 then some n else none

/-- `IPv4Network(s, strict=False)`: returns `(network_address, prefixlen)`. -/
def parseNetwork (s : String) : Option (Nat × Nat) :=
  match splitOnChar '/' s.data with
  | [a] => (parseIPv4Addr a).map (fun x => (x, 32))
  | [a, p] =>
    match parseIPv4Addr a, parsePlen p with
    | some x, some n => some (x - x % 2 ^ (32 - n), n)
    | _, _ => none
  | _ => none

def formatIPv4 (n : Nat) : String :=
  natToStr (n / 16777216 % 256) ++ "." ++ natToStr (n / 65536 % 256) ++ "." ++
    natToStr (n / 256 % 256) ++ "." ++ natToStr (n % 256)

inductive VpcError where
  | commandError (cmd : String) (code : Nat) (stderr : String)
  | invalidRange
  | notFound (name : String)
  | keyError (key : String)
  | indexError
deriving DecidableEq, Repr

instance {ε α : Type} [DecidableEq ε] [DecidableEq α] : DecidableEq (Except ε α)
  | .error a, .error b =>
    if h : a = b then .isTrue (by rw [h]) else .isFalse (fun hc => h (Except.error.inj hc))
  | .error _, .ok _ => .isFalse (fun hc => Except.noConfusion hc)
  | .ok _, .error _ => .isFalse (fun hc => Except.noConfusion hc)
  | .ok a, .ok b =>
    if h : a = b then .isTrue (by rw [h]) else .isFalse (fun hc => h (Except.ok.inj hc))

namespace IPUtils

/-- `IPUtils.get_gateway_ip` (src 21-25): `str(network.network_address + 1)`.
The address arithmetic raises when it leaves the 32-bit space. -/
def get_gateway_ip (vpc_cidr : String) : Except VpcError String :=
  match parseNetwork vpc_cidr with
  | none => .error .invalidRange
  | some (net, _) =>
    if net + 1 < 4294967296 then .ok (formatIPv4 (net + 1)) else .error .invalidRange

/-- `IPUtils.get_subnet_ip` (src 27-31): `f"{network.network_address + 1}/{network.prefixlen}"`. -/
def get_subnet_ip (subnet_cidr : String) : Except VpcError String :=
  match parseNetwork subnet_cidr with
  | none => .error .invalidRange
  | some (net, plen) =>
    if net + 1 < 4294967296 then .ok (formatIPv4 (net + 1) ++ "/" ++ natToStr plen)
    else .error .invalidRange

end IPUtils

/-! ## The Executor: `runCmd` (src lines 51-89)

`subprocess.run(cmd, shell=True, ...)` is modelled by an `Executor`: the
deterministic response of the environment to each command string.  A non-zero
exit code together with `check=True` corresponds to `CalledProcessError`,
which `runCmd` either tolerates (returning `None`, modelled `Option.none`)
or re-raises (modelled `VpcError.commandError` carrying the failing command
and its captured stderr).  Log output is returned alongside. -/

structure ProcResult where
  exitCode : Nat
  stdout : String
  stderr : String
deriving DecidableEq, Repr

abbrev Executor : Type := String → ProcResult

/-- The keyword options of `runCmd` with their Python defaults. -/
structure RunOpts where
  check : Bool := true
  capture : Bool := true
  ignore_exists : Bool := false
  ignore_errors : Bool := false
deriving DecidableEq, Repr

inductive LogLine where
  | info (msg : String)
  | warn (msg : String)
  | error (msg : String)
  | success (msg : String)
deriving DecidableEq, Repr

/-- The seven stderr signatures treated as "already exists / endpoint missing"
(src lines 69-77). -/
def existsSignatures : List String :=
  ["File exists", "RTNETLINK answers: File exists", "Address already assigned",
   "already exists", "Cannot find device", "Nexthop has invalid gateway",
   "Attribute failed policy validation"]

def matchesExistsSignature (stderr : String) : Bool :=
  existsSignatures.any (fun sig => containsStr stderr sig)

/-- `str(e.stderr)`: without capture the exception carries `stderr = None`,
whose Python string form is `"None"`. -/
def stderrText (opts : RunOpts) (res : ProcResult) : String :=
  if opts.capture then res.stderr else "None"

/-- `runCmd` (src 51-89).  Returns the Python return value (stdout when
captured, `None` otherwise / on a tolerated failure) or the re-raised
`CalledProcessError`, together with everything logged. -/
def runCmd (cmd : String) (opts : RunOpts) (res : ProcResult) :
    Except VpcError (Option String) × List LogLine :=
  let execLog := LogLine.info ("Executing: " ++ cmd)
  if opts.check = true ∧ res.exitCode ≠ 0 then
    if opts.ignore_exists = true ∧ matchesExistsSignature (stderrText opts res) = true then
      (.ok none, [execLog, .warn ("Resource already configured, continuing: " ++ cmd)])
    else if opts.ignore_errors = true then
      (.ok none, [execLog, .warn ("Command failed but ignoring: " ++ cmd)])
    else
      (.error (.commandError cmd res.exitCode res.stderr),
        [execLog, .error ("Command failed: " ++ cmd ++ " returned non-zero exit status " ++
            natToStr res.exitCode)] ++
          (if opts.capture = true then [LogLine.error ("Output: " ++ stderrText opts res)] else []))
  else
    (.ok (if opts.capture = true then some res.stdout else none), [execLog])

/-- One `runCmd` invocation against the environment, logs dropped. -/
def runStep (exec : Executor) (cmd : String) (opts : RunOpts) : Except VpcError (Option String) :=
  (runCmd cmd opts (exec cmd)).1

/-- A sequence of `runCmd` invocations, stopping at the first raised error. -/
def runSteps (exec : Executor) : List (String × RunOpts) → Except VpcError Unit
  | [] => .ok ()
  | (cmd, opts) :: rest =>
    match runStep exec cmd opts with
    | .error e => .error e
    | .ok _ => runSteps exec rest

/-! ## The persisted store (`CONFIG_DIR`, `save_config`, `load`)

One JSON file `<name>.json` per VPC in a fixed directory, modelled as an
association list from VPC name to the written record.  JSON objects keep
insertion order and assignment replaces in place, exactly like the Python
dictionaries they serialize. -/

abbrev FieldMap : Type := List (String × String)

abbrev SubnetMap : Type := List (String × FieldMap)

/-- A persisted VPC record: its scalar top-level JSON fields in order, and
the `subnets` object. -/
structure Config where
  top : FieldMap
  subnets : SubnetMap
deriving DecidableEq, Repr

abbrev Store : Type := List (String × Config)

def lookupKey {α : Type} : List (String × α) → String → Option α
  | [], _ => none
  | (k, v) :: rest, key => if k = key then some v else lookupKey rest key

/-- Python `d[key] = v`: replace in place, else append. -/
def setKey {α : Type} : List (String × α) → String → α → List (String × α)
  | [], key, v => [(key, v)]
  | (k, v0) :: rest, key, v =>
    if k = key then (key, v) :: rest else (k, v0) :: setKey rest key v

def delKey {α : Type} : List (String × α) → String → List (String × α)
  | [], _ => []
  | (k, v) :: rest, key => if k = key then delKey rest key else (k, v) :: delKey rest key

def countKey {α : Type} : List (String × α) → String → Nat
  | [], _ => 0
  | (k, _) :: rest, key => (if k = key then 1 else 0) + countKey rest key

/-! ## The VPC model (`class VPC`, src lines 91-317)

The source command runner (src 51-89) is spelled `runCmd` here, because its
Python name, run followed by an underscore and cmd, is reserved by Lean;
every other name follows the source.  Subnet entries are kept in the
dynamic dictionary form the Python code uses, so records written by
`recover` (which omit some fields) load and round-trip exactly as they do
in Python. -/

structure VPC where
  name : String
  cidr : String
  bridge : String
  subnets : SubnetMap
deriving DecidableEq, Repr

/-- `VPC.__init__` (src 94-99): `self.bridge = f"vpc-{name}"`, empty subnets. -/
def mkVPC (name cidr : String) : VPC :=
  { name := name, cidr := cidr, bridge := "vpc-" ++ name, subnets := [] }

/-- `VPC.save_config` (src 275-284): the JSON record written to
`CONFIG_DIR/<name>.json`. -/
def VPC.save_config (v : VPC) : Config :=
  { top := [("name", v.name), ("cidr", v.cidr), ("bridge", v.bridge)], subnets := v.subnets }

/-- `VPC.load` (src 286-298): raises `FileNotFoundError` when the record is
absent, re-derives the bridge via `__init__` and restores the subnet map.
Missing `name`/`cidr` keys would raise `KeyError` in Python. -/
def VPC.load (st : Store) (name : String) : Except VpcError VPC :=
  match lookupKey st name with
  | none => .error (.notFound name)
  | some config =>
    match lookupKey config.top "name" with
    | none => .error (.keyError "name")
    | some n =>
      match lookupKey config.top "cidr" with
      | none => .error (.keyError "cidr")
      | some c => .ok { mkVPC n c with subnets := config.subnets }

/-- `self.cidr.split('/')[1]` (src 111): raises `IndexError` without a slash. -/
def cidrSuffix (s : String) : Except VpcError String :=
  match splitOnChar '/' s.data with
  | _ :: p :: _ => .ok (String.mk p)
  | _ => .error .indexError

/-- The tolerance options used by the provisioning steps. -/
def tolOpts : RunOpts := { ignore_exists := true }

/-- `VPC.create` (src 101-114).  Allocate the bridge (tolerant), bring it up
(NOT tolerant), assign the gateway address (tolerant), then persist. -/
def VPC.create (v : VPC) (exec : Executor) (st : Store) : Except VpcError Store := do
  let _ ← runStep exec ("ip link add " ++ v.bridge ++ " type bridge") tolOpts
  let _ ← runStep exec ("ip link set " ++ v.bridge ++ " up") {}
  let gateway_ip ← IPUtils.get_gateway_ip v.cidr
  let plen ← cidrSuffix v.cidr
  let _ ← runStep exec ("ip addr add " ++ gateway_ip ++ "/" ++ plen ++ " dev " ++ v.bridge) tolOpts
  pure (setKey st v.name v.save_config)

/-- `veth_host = f"veth-{subnet_name}"` (src 121). -/
def vethHostName (subnet_name : String) : String :=
  "veth-" ++ subnet_name

/-- `veth_ns = f"v{subnet_name[:10]}"` (src 122). -/
def vethNsName (subnet_name : String) : String :=
  "v" ++ strTake subnet_name 10

/-- The subnet record stored by `add_subnet` (src 148-154). -/
def subnetFields (cidr ty ns_name veth_host ip : String) : FieldMap :=
  [("cidr", cidr), ("type", ty), ("namespace", ns_name), ("veth_host", veth_host), ("ip", ip)]

abbrev Trace : Type := List (String × RunOpts)

/-- `VPC.add_subnet` (src 116-157).  On success also returns the trace of
issued commands with their tolerance options. -/
def VPC.add_subnet (v : VPC) (subnet_name cidr subnet_type : String)
    (exec : Executor) (st : Store) : Except VpcError (VPC × Store × Trace) := do
  let ns_name := v.name ++ "-" ++ subnet_name
  let veth_host := vethHostName subnet_name
  let veth_ns := vethNsName subnet_name
  let batch1 : Trace :=
    [("ip netns add " ++ ns_name, tolOpts),
     ("ip link add " ++ veth_host ++ " type veth peer name " ++ veth_ns, tolOpts),
     ("ip link set " ++ veth_host ++ " master " ++ v.bridge, tolOpts),
     ("ip link set " ++ veth_host ++ " up", tolOpts),
     ("ip link set " ++ veth_ns ++ " netns " ++ ns_name, tolOpts)]
  let _ ← runSteps exec batch1
  let subnet_ip ← IPUtils.get_subnet_ip cidr
  let batch2 : Trace :=
    [("ip netns exec " ++ ns_name ++ " ip addr add " ++ subnet_ip ++ " dev " ++ veth_ns, tolOpts),
     ("ip netns exec " ++ ns_name ++ " ip link set " ++ veth_ns ++ " up", tolOpts),
     ("ip netns exec " ++ ns_name ++ " ip link set lo up", tolOpts)]
  let _ ← runSteps exec batch2
  let gateway_ip ← IPUtils.get_gateway_ip v.cidr
  let c9 := "ip netns exec " ++ ns_name ++ " ip route add default via " ++ gateway_ip
  let _ ← runStep exec c9 tolOpts
  let newFields := subnetFields cidr subnet_type ns_name veth_host subnet_ip
  let v2 : VPC := { v with subnets := setKey v.subnets subnet_name newFields }
  pure (v2, setKey st v2.name v2.save_config, batch1 ++ batch2 ++ [(c9, tolOpts)])

/-- Convenience projection: one field of one stored subnet. -/
def subnetField (v : VPC) (subnet_name key : String) : Option String :=
  (lookupKey v.subnets subnet_name).bind (fun fields => lookupKey fields key)

/-! ### apply_firewall (src 173-210) -/

structure PolicyRule where
  port : Nat
  protocol : String
  action : String
deriving DecidableEq, Repr

/-- The parsed policy JSON: `policy.get("subnet")` may be absent. -/
structure Policy where
  subnet : Option String
  ingress : List PolicyRule
deriving DecidableEq, Repr

/-- Python `str(x)` for an optional string (`str(None) = "None"`). -/
def pyStr : Option String → String
  | none => "None"
  | some s => s

/-- First subnet whose `"cidr"` field equals the policy target (src 184-187).
A subnet record without a `"cidr"` key would raise `KeyError`. -/
def findSubnetByCidr : SubnetMap → Option String → Except VpcError (Option String)
  | [], _ => .ok none
  | (name, fields) :: rest, target =>
    match lookupKey fields "cidr" with
    | none => .error (.keyError "cidr")
    | some c => if target = some c then .ok (some name) else findSubnetByCidr rest target

/-- `rule["action"].upper()` mapped to an iptables target; unrecognized
actions are skipped (src 199-206). -/
def actionTarget (action : String) : Option String :=
  let a := strUpper action
  if a = "ALLOW" then some "ACCEPT" else if a = "DENY" then some "DROP" else none

/-- The ingress loop (src 196-210): returns the applied iptables commands
and the success log lines. -/
def applyRules (exec : Executor) (ns_name : String) :
    List PolicyRule → Except VpcError (List String × List LogLine)
  | [] => .ok ([], [])
  | r :: rest =>
    match actionTarget r.action with
    | none => applyRules exec ns_name rest
    | some tgt =>
      let cmd := "ip netns exec " ++ ns_name ++ " iptables -A INPUT -p " ++ r.protocol ++
        " --dport " ++ natToStr r.port ++ " -j " ++ tgt
      match runStep exec cmd {} with
      | .error e => .error e
      | .ok _ =>
        match applyRules exec ns_name rest with
        | .error e => .error e
        | .ok (cs, ls) =>
          .ok (cmd :: cs,
            LogLine.success ("Rule applied: " ++ r.protocol ++ "/" ++ natToStr r.port ++
              " -> " ++ strUpper r.action) :: ls)

/-- `VPC.apply_firewall` (src 173-210).  Returns the list of applied
packet-filter commands and the log.  An unmatched subnet CIDR only LOGS an
error (`Logger.error`) and returns `None`: no exception is raised. -/
def VPC.apply_firewall (v : VPC) (policy_file : String) (p : Policy) (exec : Executor) :
    Except VpcError (List String × List LogLine) :=
  let hd := LogLine.info ("Applying firewall policy from " ++ policy_file)
  match findSubnetByCidr v.subnets p.subnet with
  | .error e => .error e
  | .ok none => .ok ([], [hd, .error ("Subnet " ++ pyStr p.subnet ++ " not found")])
  | .ok (some subnet_name) =>
    match lookupKey v.subnets subnet_name with
    | none => .error (.keyError subnet_name)
    | some fields =>
      match lookupKey fields "namespace" with
      | none => .error (.keyError "namespace")
      | some ns_name =>
        match applyRules exec ns_name p.ingress with
        | .error e => .error e
        | .ok (cs, ls) => .ok (cs, hd :: ls)

/-- The `apply-policy` branch of `main` (src 361-365, 581-583): any raised
exception is caught and the process exits 1, otherwise 0. -/
def mainApplyPolicy (st : Store) (vpc_name policy_file : String) (p : Policy)
    (exec : Executor) : Nat :=
  match VPC.load st vpc_name with
  | .error _ => 1
  | .ok v =>
    match v.apply_firewall policy_file p exec with
    | .error _ => 1
    | .ok _ => 0

/-! ### delete (src 252-273) -/

def noCheckOpts : RunOpts := { check := false }

/-- The per-subnet namespace teardown (src 257-260): `check=False`, so a
failing command never raises; a record without a `"namespace"` key would
raise `KeyError`. -/
def delNamespaces (exec : Executor) : SubnetMap → Except VpcError Unit
  | [] => .ok ()
  | (_, fields) :: rest =>
    match lookupKey fields "namespace" with
    | none => .error (.keyError "namespace")
    | some ns_name =>
      match runStep exec ("ip netns del " ++ ns_name) noCheckOpts with
      | .error e => .error e
      | .ok _ => delNamespaces exec rest

/-- `VPC.delete` (src 252-273): best-effort teardown (every OS step runs
with `check=False`), then the record file is removed. -/
def VPC.delete (v : VPC) (exec : Executor) (st : Store) : Except VpcError Store := do
  let _ ← delNamespaces exec v.subnets
  let _ ← runStep exec ("ip link del " ++ v.bridge) noCheckOpts
  let _ ← runStep exec ("iptables -t nat -D POSTROUTING -s " ++ v.cidr ++ " -o eth0 -j MASQUERADE")
      noCheckOpts
  pure (delKey st v.name)

/-! ### The `recover` branch of `main` (src 450-521)

`ip netns list` output arrives as `nsStdout`.  The Python built-in `hash` on
strings is salted per process, so it enters the model as a parameter
`h : String → Nat`; everything else is transcribed from the source. -/

/-- `result.stdout.strip().split('\n') if result.stdout.strip() else []`. -/
def recoverLines (nsStdout : String) : List String :=
  if stripWs nsStdout.data = [] then []
  else (splitOnChar '\n' (stripWs nsStdout.data)).map String.mk

/-- `'-'.join(parts[1:])` composed back from a split. -/
def joinDash : List (List Char) → List Char
  | [] => []
  | [x] => x
  | x :: y :: rest => x ++ '-' :: joinDash (y :: rest)

/-- `vpcs[vpc_name].append((subnet_name, ns_name))` with dict-insertion order. -/
def addGroup (gs : List (String × List (String × String))) (vn sn ns : String) :
    List (String × List (String × String)) :=
  match gs with
  | [] => [(vn, [(sn, ns)])]
  | (k, subs) :: rest =>
    if k = vn then (k, subs ++ [(sn, ns)]) :: rest else (k, subs) :: addGroup rest vn sn ns

/-- The namespace-grouping loop (src 459-470). -/
def groupOne (gs : List (String × List (String × String))) (line : String) :
    List (String × List (String × String)) :=
  let ns_name := String.mk (firstToken line.data)
  if ns_name.data.contains '-' then
    match splitOnChar '-' ns_name.data with
    | p0 :: p1 :: rest => addGroup gs (String.mk p0) (String.mk (joinDash (p1 :: rest))) ns_name
    | _ => gs
  else gs

def groupNamespaces (lines : List String) : List (String × List (String × String)) :=
  lines.foldl groupOne []

/-- The CIDR lookup (src 481-488): fixed for `dev`/`prod`/`test`, derived
from the process string hash otherwise. -/
def recoverCidr (h : String → Nat) (vpc_name : String) : String :=
  if vpc_name = "dev" then "10.0.0.0/16"
  else if vpc_name = "prod" then "10.1.0.0/16"
  else if vpc_name = "test" then "10.2.0.0/16"
  else "10." ++ natToStr (h vpc_name % 254) ++ ".0.0/16"

/-- The octet picked for recovered subnet blocks: 0 for dev, 1 for prod, 2 otherwise (src 500-501). -/
def recoverOctet (vpc_name : String) : Nat :=
  if vpc_name = "dev" then 0 else if vpc_name = "prod" then 1 else 2

/-- The subnet loop (src 498-511), `subnet_counter` starting at `k`.
Entries carry `cidr`, `type`, `namespace`, `ip` - and no `veth_host`. -/
def recoverSubnetEntries (vpc_name : String) : Nat → List (String × String) → SubnetMap
  | _, [] => []
  | k, (sn, ns) :: rest =>
    (sn, [("cidr", "10." ++ natToStr (recoverOctet vpc_name) ++ "." ++ natToStr k ++ ".0/24"),
          ("type", if containsStr sn "public" then "public" else "private"),
          ("namespace", ns),
          ("ip", "10." ++ natToStr (recoverOctet vpc_name) ++ "." ++ natToStr k ++ ".10/24")]) ::
      recoverSubnetEntries vpc_name (k + 1) rest

/-- The record written per recovered VPC (src 491-516): top-level keys
`name` and `cidr` only - no `bridge`. -/
def recoverConfig (h : String → Nat) (vpc_name : String) (subs : List (String × String)) :
    Config :=
  { top := [("name", vpc_name), ("cidr", recoverCidr h vpc_name)],
    subnets := recoverSubnetEntries vpc_name 1 subs }

/-- The store after `recover` writes one record per inferred VPC. -/
def recoverStore (h : String → Nat) (nsStdout : String) (st : Store) : Store :=
  (groupNamespaces (recoverLines nsStdout)).foldl
    (fun acc g => setKey acc g.1 (recoverConfig h g.1 g.2)) st

/-- Everything the `recover` branch prints (src 452-521).  All output goes
through bare `print`: no `Logger.warn` line is ever produced. -/
def recoverOutput (_h : String → Nat) (nsStdout : String) : List String :=
  let groups := groupNamespaces (recoverLines nsStdout)
  ["\nRecovering VPC configurations from existing infrastructure...",
   "Found " ++ natToStr groups.length ++ " VPCs to recover:"] ++
  groups.map (fun g => "  - " ++ g.1 ++ ": " ++ natToStr g.2.length ++ " subnets") ++
  (groups.map (fun g =>
      ["\nRecovering VPC: " ++ g.1,
       "✓ Recovered VPC " ++ g.1 ++ " with " ++ natToStr g.2.length ++ " subnets"])).flatten ++
  ["\n✓ Recovery complete! Recovered " ++ natToStr groups.length ++ " VPCs",
   "You can now use vpcctl show <vpc-name> to view configurations"]

/-- A line `Logger.warn` would print (src 47-49). -/
def isWarnLine (s : String) : Bool :=
  strStarts "[WARN]" s

/-! ## Shared lemmas -/

theorem lookupKey_setKey_self {α : Type} (l : List (String × α)) (k : String) (v : α) :
    lookupKey (setKey l k v) k = some v := by
  induction l with
  | nil => simp [setKey, lookupKey]
  | cons p rest ih =>
    by_cases h : p.1 = k
    · simp [setKey, lookupKey, h]
    · simp [setKey, lookupKey, h, ih]

theorem setKey_setKey_self {α : Type} (l : List (String × α)) (k : String) (v w : α) :
    setKey (setKey l k v) k w = setKey l k w := by
  induction l with
  | nil => simp [setKey]
  | cons p rest ih =>
    by_cases h : p.1 = k
    · simp [setKey, h]
    · simp [setKey, h, ih]

theorem countKey_setKey {α : Type} (l : List (String × α)) (k : String) (v : α) :
    countKey (setKey l k v) k = if countKey l k = 0 then 1 else countKey l k := by
  induction l with
  | nil => simp [setKey, countKey]
  | cons p rest ih =>
    by_cases h : p.1 = k
    · simp [setKey, countKey, h]
    · simp only [setKey, countKey, h, if_false, ih]
      simp [h]

theorem lookupKey_delKey_self {α : Type} (l : List (String × α)) (k : String) :
    lookupKey (delKey l k) k = none := by
  induction l with
  | nil => simp [delKey, lookupKey]
  | cons p rest ih =>
    by_cases h : p.1 = k
    · simp [delKey, h, ih]
    · simp [delKey, lookupKey, h, ih]

theorem str_data_append (a b : String) : (a ++ b).data = a.data ++ b.data := rfl

/-! ## Claims -/

/-- C7: for every well-formed CIDR range, `get_gateway_ip` returns the first
usable host address (network address + 1) and `get_subnet_ip` returns the
first usable host address of the subnet range with its prefix length; in
particular `10.0.0.0/16 ↦ 10.0.0.1` and `10.0.1.0/24 ↦ 10.0.1.1/24`; both
are pure functions that fail with `InvalidRangeError` on malformed input. -/
theorem ip_utils_address_derivation :
    (∀ s a n, parseNetwork s = some (a, n) → a + 1 < 4294967296 →
      IPUtils.get_gateway_ip s = .ok (formatIPv4 (a + 1)) ∧
      IPUtils.get_subnet_ip s = .ok (formatIPv4 (a + 1) ++ "/" ++ natToStr n)) ∧
    (∀ s, parseNetwork s = none →
      IPUtils.get_gateway_ip s = .error .invalidRange ∧
      IPUtils.get_subnet_ip s = .error .invalidRange) ∧
    IPUtils.get_gateway_ip "10.0.0.0/16" = .ok "10.0.0.1" ∧
    IPUtils.get_subnet_ip "10.0.1.0/24" = .ok "10.0.1.1/24" ∧
    IPUtils.get_gateway_ip "not-a-cidr" = .error .invalidRange ∧
    IPUtils.get_subnet_ip "10.0.0/33" = .error .invalidRange := by
  refine ⟨?_, ?_, by decide, by decide, by decide, by decide⟩
  · intro s a n hp hlt
    constructor
    · simp [IPUtils.get_gateway_ip, hp, hlt]
    · simp [IPUtils.get_subnet_ip, hp, hlt]
  · intro s hp
    constructor
    · simp [IPUtils.get_gateway_ip, hp]
    · simp [IPUtils.get_subnet_ip, hp]

theorem ip_utils_address_derivation_witness :
    IPUtils.get_gateway_ip "192.168.7.0/24" = .ok (formatIPv4 (3232237312 + 1)) ∧
    IPUtils.get_subnet_ip "192.168.7.0/24" = .ok (formatIPv4 (3232237312 + 1) ++ "/" ++ natToStr 24) :=
  ip_utils_address_derivation.1 "192.168.7.0/24" 3232237312 24 (by decide) (by decide)

/-- C1: for every command and every non-zero-exit process result under
`check=True`: with `ignore_exists` set and a recognized stderr signature the
call logs a warning and returns an empty success result; with
`ignore_errors` set any failure degrades to a warning and an empty success
result; otherwise the call fails with a `CommandError` carrying the failing
command and its stderr. -/
theorem runCmd_error_policy (cmd : String) (opts : RunOpts) (res : ProcResult)
    (hfail : res.exitCode ≠ 0) (hcheck : opts.check = true) :
    (opts.capture = true → opts.ignore_exists = true →
      matchesExistsSignature res.stderr = true →
      runCmd cmd opts res =
        (.ok none, [.info ("Executing: " ++ cmd),
                    .warn ("Resource already configured, continuing: " ++ cmd)])) ∧
    (opts.ignore_errors = true →
      (runCmd cmd opts res).1 = .ok none ∧
      ∃ w, LogLine.warn w ∈ (runCmd cmd opts res).2) ∧
    ((opts.ignore_exists = true → matchesExistsSignature (stderrText opts res) = false) →
      opts.ignore_errors = false →
      (runCmd cmd opts res).1 = .error (.commandError cmd res.exitCode res.stderr)) := by
  have hc : opts.check = true ∧ res.exitCode ≠ 0 := ⟨hcheck, hfail⟩
  refine ⟨?_, ?_, ?_⟩
  · intro hcap hex hm
    have hst : stderrText opts res = res.stderr := by simp [stderrText, hcap]
    simp only [runCmd]
    rw [if_pos hc, if_pos ⟨hex, by rw [hst]; exact hm⟩]
  · intro herr
    by_cases hx : opts.ignore_exists = true ∧ matchesExistsSignature (stderrText opts res) = true
    · constructor
      · simp only [runCmd]; rw [if_pos hc, if_pos hx]
      · refine ⟨"Resource already configured, continuing: " ++ cmd, ?_⟩
        simp only [runCmd]; rw [if_pos hc, if_pos hx]; simp
    · constructor
      · simp only [runCmd]; rw [if_pos hc, if_neg hx, if_pos herr]
      · refine ⟨"Command failed but ignoring: " ++ cmd, ?_⟩
        simp only [runCmd]; rw [if_pos hc, if_neg hx, if_pos herr]; simp
  · intro hne herr
    have hx : ¬(opts.ignore_exists = true ∧ matchesExistsSignature (stderrText opts res) = true) := by
      rintro ⟨h1, h2⟩
      rw [hne h1] at h2
      cases h2
    simp only [runCmd]
    rw [if_pos hc, if_neg hx, if_neg (by rw [herr]; exact Bool.false_ne_true)]

theorem runCmd_error_policy_witness :
    runCmd "ip link add vpc-a type bridge" { ignore_exists := true }
        ⟨2, "", "RTNETLINK answers: File exists"⟩ =
      (.ok none,
       [.info "Executing: ip link add vpc-a type bridge",
        .warn "Resource already configured, continuing: ip link add vpc-a type bridge"]) :=
  (runCmd_error_policy "ip link add vpc-a type bridge" { ignore_exists := true }
      ⟨2, "", "RTNETLINK answers: File exists"⟩ (by decide) rfl).1 rfl rfl (by decide)

/-- C5: for every VPC record built by the program (its bridge is the one
`__init__` derives), `save_config` followed by `load` reproduces a record
identical to the one saved: same name, same cidr, same derived bridge,
same subnet mapping. -/
theorem save_load_roundtrip (st : Store) (v : VPC) (hb : v.bridge = "vpc-" ++ v.name) :
    VPC.load (setKey st v.name v.save_config) v.name = .ok v := by
  cases v with
  | mk n c b s =>
    simp only [VPC.save_config] at *
    simp only [VPC.load]
    rw [lookupKey_setKey_self]
    simp only [lookupKey, if_pos rfl, if_neg (by decide : ¬("name" = "cidr"))]
    rw [hb]
    rfl

def sampleVpc : VPC :=
  { name := "web1", cidr := "10.5.0.0/16", bridge := "vpc-web1",
    subnets := [("app", subnetFields "10.5.1.0/24" "public" "web1-app" "veth-app" "10.5.1.1/24")] }

theorem save_load_roundtrip_witness :
    sampleVpc.bridge = "vpc-" ++ sampleVpc.name ∧
    VPC.load (setKey [] sampleVpc.name sampleVpc.save_config) sampleVpc.name = .ok sampleVpc :=
  ⟨rfl, save_load_roundtrip [] sampleVpc rfl⟩

/-- Any `check=False` step returns normally whatever the process did. -/
theorem runStep_noCheck (exec : Executor) (cmd : String) :
    runStep exec cmd noCheckOpts = .ok (some (exec cmd).stdout) := by
  simp [runStep, runCmd, noCheckOpts]

theorem delNamespaces_ok (exec : Executor) (subs : SubnetMap)
    (hns : ∀ p ∈ subs, lookupKey p.2 "namespace" ≠ none) :
    delNamespaces exec subs = .ok () := by
  induction subs with
  | nil => rfl
  | cons p rest ih =>
    have h1 := hns p (List.mem_cons_self p rest)
    cases hl : lookupKey p.2 "namespace" with
    | none => exact absurd hl h1
    | some ns =>
      simp only [delNamespaces, hl]
      rw [runStep_noCheck]
      exact ih (fun q hq => hns q (List.mem_cons_of_mem p hq))

/-- C6: after `delete`, the persisted record is absent and a subsequent
`load` of that name fails with `NotFoundError`, regardless of how the
underlying OS teardown commands behaved (every teardown step tolerates
failure), for every record whose subnets carry a `namespace` field. -/
theorem delete_removes_record (v : VPC) (exec : Executor) (st : Store)
    (hns : ∀ p ∈ v.subnets, lookupKey p.2 "namespace" ≠ none) :
    v.delete exec st = .ok (delKey st v.name) ∧
    lookupKey (delKey st v.name) v.name = none ∧
    VPC.load (delKey st v.name) v.name = .error (.notFound v.name) ∧
    ∀ exec2 : Executor, v.delete exec2 st = v.delete exec st := by
  have hdel : ∀ e : Executor, v.delete e st = .ok (delKey st v.name) := by
    intro e
    simp only [VPC.delete]
    rw [delNamespaces_ok e v.subnets hns, runStep_noCheck, runStep_noCheck]
    rfl
  refine ⟨hdel exec, lookupKey_delKey_self st v.name, ?_, fun e2 => by rw [hdel e2, hdel exec]⟩
  simp [VPC.load, lookupKey_delKey_self]

def execAllOk : Executor := fun _ => ⟨0, "", ""⟩

theorem delete_removes_record_witness :
    (∀ p ∈ sampleVpc.subnets, lookupKey p.2 "namespace" ≠ none) ∧
    (sampleVpc.delete execAllOk [("web1", sampleVpc.save_config)] =
        .ok (delKey [("web1", sampleVpc.save_config)] sampleVpc.name) ∧
      lookupKey (delKey [("web1", sampleVpc.save_config)] sampleVpc.name) sampleVpc.name = none ∧
      VPC.load (delKey [("web1", sampleVpc.save_config)] sampleVpc.name) sampleVpc.name =
        .error (.notFound sampleVpc.name) ∧
      ∀ exec2 : Executor, sampleVpc.delete exec2 [("web1", sampleVpc.save_config)] =
        sampleVpc.delete execAllOk [("web1", sampleVpc.save_config)]) :=
  ⟨by decide, delete_removes_record sampleVpc execAllOk [("web1", sampleVpc.save_config)] (by decide)⟩

/-- C2 (amended): `apply_firewall` against a policy naming a CIDR matching
no subnet applies zero packet-filter rules and logs an error line, but it
raises nothing: the call returns an empty success result, so the process
exits 0 (not 1) - there is no `SubnetNotFoundError` failure. -/
theorem apply_firewall_unmatched (v : VPC) (policy_file : String) (p : Policy)
    (exec : Executor) (st : Store) (vpc_name : String)
    (hfound : findSubnetByCidr v.subnets p.subnet = .ok none)
    (hload : VPC.load st vpc_name = .ok v) :
    v.apply_firewall policy_file p exec =
      .ok ([], [.info ("Applying firewall policy from " ++ policy_file),
                .error ("Subnet " ++ pyStr p.subnet ++ " not found")]) ∧
    mainApplyPolicy st vpc_name policy_file p exec = 0 := by
  have h1 : v.apply_firewall policy_file p exec =
      .ok ([], [.info ("Applying firewall policy from " ++ policy_file),
                .error ("Subnet " ++ pyStr p.subnet ++ " not found")]) := by
    simp only [VPC.apply_firewall, hfound]
  exact ⟨h1, by simp only [mainApplyPolicy, hload, h1]⟩

/-- A policy whose subnet CIDR matches no subnet of `sampleVpc`, with a
non-empty ingress list. -/
def unmatchedPolicy : Policy :=
  { subnet := some "10.9.9.0/24", ingress := [⟨80, "tcp", "allow"⟩] }

theorem apply_firewall_unmatched_cex :
    sampleVpc.apply_firewall "policy.json" unmatchedPolicy execAllOk =
      .ok ([], [.info "Applying firewall policy from policy.json",
                .error "Subnet 10.9.9.0/24 not found"]) ∧
    mainApplyPolicy [("web1", sampleVpc.save_config)] "web1" "policy.json"
      unmatchedPolicy execAllOk = 0 := by
  exact ⟨rfl, rfl⟩

theorem apply_firewall_unmatched_witness :
    sampleVpc.apply_firewall "p.json" { subnet := none, ingress := [] } execAllOk =
      .ok ([], [.info "Applying firewall policy from p.json",
                .error "Subnet None not found"]) ∧
    mainApplyPolicy [("web1", sampleVpc.save_config)] "web1" "p.json"
      { subnet := none, ingress := [] } execAllOk = 0 :=
  apply_firewall_unmatched sampleVpc "p.json" { subnet := none, ingress := [] } execAllOk
    [("web1", sampleVpc.save_config)] "web1" (by decide) (by decide)

theorem except_bind_ok {ε α β : Type} (a : α) (f : α → Except ε β) :
    (Except.ok a >>= f) = f a := rfl

/-- A step issued with the already-exists tolerance never raises under an
executor whose failures all carry a recognized signature. -/
theorem runStep_tol (exec : Executor) (cmd : String)
    (h : (exec cmd).exitCode ≠ 0 → matchesExistsSignature (exec cmd).stderr = true) :
    ∃ o, runStep exec cmd tolOpts = .ok o := by
  by_cases hz : (exec cmd).exitCode = 0
  · exact ⟨some (exec cmd).stdout, by simp [runStep, runCmd, tolOpts, hz]⟩
  · exact ⟨none, by simp [runStep, runCmd, tolOpts, stderrText, hz, h hz]⟩

theorem runStep_exitZero (exec : Executor) (cmd : String) (opts : RunOpts)
    (h : (exec cmd).exitCode = 0) :
    runStep exec cmd opts = .ok (if opts.capture = true then some (exec cmd).stdout else none) := by
  simp [runStep, runCmd, h]

/-- C3 (amended): re-invoking `create` with the same name and range produces
exactly one persisted record identical to the first.  The first and third
steps (allocate the bridge, assign the gateway address) carry the
already-exists tolerance flag, so their "already present" failures degrade
to warnings; the second step (bring the bridge up) carries no tolerance
flag and must succeed. -/
theorem create_idempotent_amended (v : VPC) (exec : Executor) (st : Store)
    (hwf : countKey st v.name ≤ 1)
    (hup : (exec ("ip link set " ++ v.bridge ++ " up")).exitCode = 0)
    (htol : ∀ cmd, (exec cmd).exitCode ≠ 0 → matchesExistsSignature (exec cmd).stderr = true)
    (gw plen : String)
    (hgw : IPUtils.get_gateway_ip v.cidr = .ok gw)
    (hplen : cidrSuffix v.cidr = .ok plen) :
    v.create exec st = .ok (setKey st v.name v.save_config) ∧
    v.create exec (setKey st v.name v.save_config) = .ok (setKey st v.name v.save_config) ∧
    countKey (setKey st v.name v.save_config) v.name = 1 ∧
    lookupKey (setKey st v.name v.save_config) v.name = some v.save_config := by
  have hc : ∀ s : Store, v.create exec s = .ok (setKey s v.name v.save_config) := by
    intro s
    obtain ⟨o1, h1⟩ := runStep_tol exec ("ip link add " ++ v.bridge ++ " type bridge") (htol _)
    obtain ⟨o3, h3⟩ := runStep_tol exec
      ("ip addr add " ++ gw ++ "/" ++ plen ++ " dev " ++ v.bridge) (htol _)
    simp only [VPC.create]
    rw [h1, except_bind_ok, runStep_exitZero exec _ _ hup, except_bind_ok, hgw,
      except_bind_ok, hplen, except_bind_ok, h3, except_bind_ok]
    rfl
  refine ⟨hc st, ?_, ?_, lookupKey_setKey_self st v.name v.save_config⟩
  · rw [hc (setKey st v.name v.save_config), setKey_setKey_self]
  · rw [countKey_setKey]
    by_cases h0 : countKey st v.name = 0
    · simp [h0]
    · simp only [h0, if_false]
      omega

theorem create_idempotent_amended_witness :
    (mkVPC "a" "10.0.0.0/16").create execAllOk [] =
      .ok (setKey [] (mkVPC "a" "10.0.0.0/16").name (mkVPC "a" "10.0.0.0/16").save_config) ∧
    (mkVPC "a" "10.0.0.0/16").create execAllOk
        (setKey [] (mkVPC "a" "10.0.0.0/16").name (mkVPC "a" "10.0.0.0/16").save_config) =
      .ok (setKey [] (mkVPC "a" "10.0.0.0/16").name (mkVPC "a" "10.0.0.0/16").save_config) ∧
    countKey (setKey [] (mkVPC "a" "10.0.0.0/16").name (mkVPC "a" "10.0.0.0/16").save_config)
      (mkVPC "a" "10.0.0.0/16").name = 1 ∧
    lookupKey (setKey [] (mkVPC "a" "10.0.0.0/16").name (mkVPC "a" "10.0.0.0/16").save_config)
      (mkVPC "a" "10.0.0.0/16").name = some (mkVPC "a" "10.0.0.0/16").save_config :=
  create_idempotent_amended (mkVPC "a" "10.0.0.0/16") execAllOk [] (by decide) rfl
    (fun _ h => absurd rfl h) "10.0.0.1" "16" (by decide) (by decide)

/-- An executor on which only the untolerated bring-up step fails - and it
fails with an "already exists" diagnostic. -/
def execUpFails : Executor := fun cmd =>
  if cmd = "ip link set vpc-a up" then ⟨1, "", "RTNETLINK answers: File exists"⟩
  else ⟨0, "", ""⟩

theorem create_up_step_not_tolerant_cex :
    (mkVPC "a" "10.0.0.0/16").create execUpFails [] =
      .error (.commandError "ip link set vpc-a up" 1 "RTNETLINK answers: File exists") := by
  rfl

theorem except_bind_inv {ε α β : Type} {x : Except ε α} {f : α → Except ε β} {b : β}
    (h : (x >>= f) = .ok b) : ∃ a, x = .ok a ∧ f a = .ok b := by
  cases x with
  | error e => exact Except.noConfusion h
  | ok a => exact ⟨a, rfl, h⟩

/-- The record `add_subnet` stores on success (src 148-154). -/
def addSubnetResult (v : VPC) (sn c ty sip : String) : VPC :=
  { v with
    subnets := setKey v.subnets sn (subnetFields c ty (v.name ++ "-" ++ sn) (vethHostName sn) sip) }

/-- Inversion of a successful `add_subnet`: the resulting record, store and
command trace. -/
theorem add_subnet_ok_inv {v : VPC} {sn c ty : String} {exec : Executor} {st : Store}
    {v2 : VPC} {st2 : Store} {tr : Trace}
    (h : v.add_subnet sn c ty exec st = .ok (v2, st2, tr)) :
    ∃ sip gw, IPUtils.get_subnet_ip c = .ok sip ∧ IPUtils.get_gateway_ip v.cidr = .ok gw ∧
      v2 = addSubnetResult v sn c ty sip ∧
      st2 = setKey st v.name (addSubnetResult v sn c ty sip).save_config ∧
      tr = [("ip netns add " ++ (v.name ++ "-" ++ sn), tolOpts),
            ("ip link add " ++ vethHostName sn ++ " type veth peer name " ++ vethNsName sn,
              tolOpts),
            ("ip link set " ++ vethHostName sn ++ " master " ++ v.bridge, tolOpts),
            ("ip link set " ++ vethHostName sn ++ " up", tolOpts),
            ("ip link set " ++ vethNsName sn ++ " netns " ++ (v.name ++ "-" ++ sn), tolOpts),
            ("ip netns exec " ++ (v.name ++ "-" ++ sn) ++ " ip addr add " ++ sip ++ " dev " ++
              vethNsName sn, tolOpts),
            ("ip netns exec " ++ (v.name ++ "-" ++ sn) ++ " ip link set " ++ vethNsName sn ++
              " up", tolOpts),
            ("ip netns exec " ++ (v.name ++ "-" ++ sn) ++ " ip link set lo up", tolOpts),
            ("ip netns exec " ++ (v.name ++ "-" ++ sn) ++ " ip route add default via " ++ gw,
              tolOpts)] := by
  simp only [VPC.add_subnet] at h
  obtain ⟨u1, hb1, h⟩ := except_bind_inv h
  obtain ⟨sip, hsip, h⟩ := except_bind_inv h
  obtain ⟨u2, hb2, h⟩ := except_bind_inv h
  obtain ⟨gw, hgw, h⟩ := except_bind_inv h
  obtain ⟨u9, h9, h⟩ := except_bind_inv h
  have h3 := Except.ok.inj h
  rw [Prod.mk.injEq, Prod.mk.injEq] at h3
  obtain ⟨hv, hst, htr⟩ := h3
  exact ⟨sip, gw, hsip, hgw, hv.symm, hst.symm, htr.symm⟩

/-- C9 (amended): the namespace resource name of a stored subnet is stable
under re-invocation of `add_subnet` (it is a pure function of the VPC and
subnet names), and with the SAME cidr argument the stored interface address
is also unchanged; with a different cidr argument the stored address is
overwritten (see the counterexample). -/
theorem add_subnet_immutability_amended (v v1 v2 : VPC) (sn c ty c2 ty2 : String)
    (e1 e2 : Executor) (st1 st2 st1r st2r : Store) (tr1 tr2 : Trace)
    (h1 : v.add_subnet sn c ty e1 st1 = .ok (v1, st1r, tr1))
    (h2 : v1.add_subnet sn c2 ty2 e2 st2 = .ok (v2, st2r, tr2)) :
    subnetField v1 sn "namespace" = some (v.name ++ "-" ++ sn) ∧
    subnetField v2 sn "namespace" = some (v.name ++ "-" ++ sn) ∧
    (c2 = c → subnetField v2 sn "ip" = subnetField v1 sn "ip") := by
  obtain ⟨sip1, gw1, hsip1, _, hv1, _, _⟩ := add_subnet_ok_inv h1
  obtain ⟨sip2, gw2, hsip2, _, hv2, _, _⟩ := add_subnet_ok_inv h2
  subst hv1
  subst hv2
  refine ⟨?_, ?_, ?_⟩
  · simp [subnetField, addSubnetResult, lookupKey_setKey_self, subnetFields, lookupKey]
  · simp [subnetField, addSubnetResult, lookupKey_setKey_self, subnetFields, lookupKey]
  · intro hcc
    rw [hcc] at hsip2
    rw [hsip1] at hsip2
    have : sip2 = sip1 := (Except.ok.inj hsip2).symm
    subst this
    simp [subnetField, addSubnetResult, lookupKey_setKey_self, subnetFields, lookupKey]

def addOnceV1 : VPC :=
  { name := "vpc1", cidr := "10.5.0.0/16", bridge := "vpc-vpc1",
    subnets := [("web", subnetFields "10.5.1.0/24" "public" "vpc1-web" "veth-web" "10.5.1.1/24")] }

def addOnceV2 : VPC :=
  { addOnceV1 with
    subnets := [("web", subnetFields "10.5.1.0/24" "private" "vpc1-web" "veth-web" "10.5.1.1/24")] }

theorem add_subnet_immutability_amended_witness :
    subnetField addOnceV1 "web" "namespace" = some "vpc1-web" ∧
    subnetField addOnceV2 "web" "namespace" = some "vpc1-web" ∧
    (("10.5.1.0/24" : String) = "10.5.1.0/24" →
      subnetField addOnceV2 "web" "ip" = subnetField addOnceV1 "web" "ip") :=
  add_subnet_immutability_amended (mkVPC "vpc1" "10.5.0.0/16") addOnceV1 addOnceV2 "web"
    "10.5.1.0/24" "public" "10.5.1.0/24" "private" execAllOk execAllOk [] [] _ _ _ _ rfl rfl

/-- Re-running `add_subnet` on the same subnet name with a DIFFERENT cidr:
the stored interface address is overwritten (the namespace name is kept). -/
def addSubnetTwiceCheck : Bool :=
  match (mkVPC "vpc1" "10.5.0.0/16").add_subnet "web" "10.5.1.0/24" "public" execAllOk [] with
  | .ok (v1, st1, _) =>
    match v1.add_subnet "web" "10.5.2.0/24" "private" execAllOk st1 with
    | .ok (v2, _, _) =>
      decide (subnetField v1 "web" "ip" = some "10.5.1.1/24") &&
      decide (subnetField v2 "web" "ip" = some "10.5.2.1/24") &&
      decide (subnetField v2 "web" "namespace" = some "vpc1-web")
    | _ => false
  | _ => false

theorem add_subnet_ip_overwritten_cex :
    addSubnetTwiceCheck = true ∧ ("10.5.1.1/24" : String) ≠ "10.5.2.1/24" := by
  exact ⟨rfl, by decide⟩

/-- C10: `add_subnet` derives the namespace-end link name as `"v"` plus the
first 10 characters of the subnet name and the host-side link name as
`"veth-"` plus the subnet name (no VPC qualifier); distinct subnet names
sharing their first 10 characters therefore collide on the namespace-end
name, and same-named subnets in different VPCs collide on both. -/
theorem veth_link_names (v : VPC) (sn c ty : String) (exec : Executor) (st : Store)
    (v2 : VPC) (st2 : Store) (tr : Trace)
    (h : v.add_subnet sn c ty exec st = .ok (v2, st2, tr)) :
    (∀ s : String, vethHostName s = "veth-" ++ s) ∧
    (∀ s : String, vethNsName s = "v" ++ strTake s 10) ∧
    subnetField v2 sn "veth_host" = some (vethHostName sn) ∧
    tr[1]? = some ("ip link add " ++ vethHostName sn ++ " type veth peer name " ++ vethNsName sn,
      tolOpts) ∧
    vethNsName "abcdefghijk1" = vethNsName "abcdefghijk2" ∧
    ("abcdefghijk1" : String) ≠ "abcdefghijk2" := by
  obtain ⟨sip, gw, _, _, hv2, _, htr⟩ := add_subnet_ok_inv h
  subst hv2
  subst htr
  refine ⟨fun s => rfl, fun s => rfl, ?_, rfl, by decide, by decide⟩
  simp [subnetField, addSubnetResult, lookupKey_setKey_self, subnetFields, lookupKey]

def longV2 : VPC :=
  { name := "p", cidr := "10.0.0.0/16", bridge := "vpc-p",
    subnets := [("websubnetname1",
      subnetFields "10.0.1.0/24" "public" "p-websubnetname1" "veth-websubnetname1"
        "10.0.1.1/24")] }

def longTr : Trace :=
  [("ip netns add p-websubnetname1", tolOpts),
   ("ip link add veth-websubnetname1 type veth peer name vwebsubnetn", tolOpts),
   ("ip link set veth-websubnetname1 master vpc-p", tolOpts),
   ("ip link set veth-websubnetname1 up", tolOpts),
   ("ip link set vwebsubnetn netns p-websubnetname1", tolOpts),
   ("ip netns exec p-websubnetname1 ip addr add 10.0.1.1/24 dev vwebsubnetn", tolOpts),
   ("ip netns exec p-websubnetname1 ip link set vwebsubnetn up", tolOpts),
   ("ip netns exec p-websubnetname1 ip link set lo up", tolOpts),
   ("ip netns exec p-websubnetname1 ip route add default via 10.0.0.1", tolOpts)]

theorem lookupKey_setKey_ne {α : Type} (l : List (String × α)) {k key : String} (h : k ≠ key)
    (v : α) : lookupKey (setKey l k v) key = lookupKey l key := by
  induction l with
  | nil => simp [setKey, lookupKey, h]
  | cons p rest ih =>
    by_cases hp : p.1 = k
    · simp [setKey, lookupKey, hp, h]
    · simp only [setKey, hp, if_false]
      by_cases hq : p.1 = key
      · simp [lookupKey, hq]
      · simp [lookupKey, hq, ih]

/-- `recover` writes one record per inferred VPC group; folding those writes
over any store leaves other keys untouched. -/
theorem lookupKey_foldl_setKey_not_mem (h : String → Nat)
    (gs : List (String × List (String × String))) (st : Store) (name : String)
    (hnm : name ∉ gs.map Prod.fst) :
    lookupKey (gs.foldl (fun acc g => setKey acc g.1 (recoverConfig h g.1 g.2)) st) name =
      lookupKey st name := by
  induction gs generalizing st with
  | nil => rfl
  | cons g rest ih =>
    simp only [List.map_cons, List.mem_cons] at hnm
    push_neg at hnm
    rw [List.foldl_cons, ih (setKey st g.1 (recoverConfig h g.1 g.2)) hnm.2,
      lookupKey_setKey_ne st (fun hc => hnm.1 hc.symm)]

theorem lookupKey_foldl_setKey_mem (h : String → Nat)
    (gs : List (String × List (String × String))) (st : Store) (name : String)
    (subs : List (String × String)) (hmem : (name, subs) ∈ gs)
    (hnd : (gs.map Prod.fst).Nodup) :
    lookupKey (gs.foldl (fun acc g => setKey acc g.1 (recoverConfig h g.1 g.2)) st) name =
      some (recoverConfig h name subs) := by
  induction gs generalizing st with
  | nil => cases hmem
  | cons g rest ih =>
    simp only [List.map_cons, List.nodup_cons] at hnd
    rcases List.mem_cons.mp hmem with heq | hmem2
    · subst heq
      rw [List.foldl_cons, lookupKey_foldl_setKey_not_mem h rest _ name hnd.1,
        lookupKey_setKey_self]
    · exact ih _ hmem2 hnd.2

theorem addGroup_keys (gs : List (String × List (String × String))) (vn sn ns : String) :
    (addGroup gs vn sn ns).map Prod.fst =
      if vn ∈ gs.map Prod.fst then gs.map Prod.fst else gs.map Prod.fst ++ [vn] := by
  induction gs with
  | nil => simp [addGroup]
  | cons g rest ih =>
    by_cases hg : g.1 = vn
    · simp [addGroup, hg]
    · have hvg : ¬vn = g.1 := fun hc => hg hc.symm
      simp only [addGroup, hg, if_false, List.map_cons, ih]
      by_cases hm : vn ∈ rest.map Prod.fst
      · simp [hm, hvg]
      · simp [hm, hvg]

theorem addGroup_nodup (gs : List (String × List (String × String))) (vn sn ns : String)
    (hnd : (gs.map Prod.fst).Nodup) : ((addGroup gs vn sn ns).map Prod.fst).Nodup := by
  rw [addGroup_keys]
  by_cases hm : vn ∈ gs.map Prod.fst
  · simpa [hm] using hnd
  · simp only [hm, if_false]
    refine List.Nodup.append hnd (List.nodup_singleton vn) ?_
    intro a ha hb
    simp only [List.mem_singleton] at hb
    subst hb
    exact hm ha

theorem groupOne_nodup (gs : List (String × List (String × String))) (line : String)
    (hnd : (gs.map Prod.fst).Nodup) : ((groupOne gs line).map Prod.fst).Nodup := by
  simp only [groupOne]
  split
  · split
    · exact addGroup_nodup _ _ _ _ hnd
    · exact hnd
  · exact hnd

theorem groupNamespaces_nodup_aux (lines : List String)
    (gs : List (String × List (String × String))) (hnd : (gs.map Prod.fst).Nodup) :
    ((lines.foldl groupOne gs).map Prod.fst).Nodup := by
  induction lines generalizing gs with
  | nil => exact hnd
  | cons l rest ih => exact ih _ (groupOne_nodup gs l hnd)

theorem groupNamespaces_nodup (lines : List String) :
    ((groupNamespaces lines).map Prod.fst).Nodup :=
  groupNamespaces_nodup_aux lines [] List.nodup_nil

theorem isWarnLine_false_of_head (s : String) (c : Char) (hc : s.data.head? = some c)
    (h : c ≠ '[') : isWarnLine s = false := by
  unfold isWarnLine strStarts
  cases hd : s.data with
  | nil => rw [hd] at hc; exact Option.noConfusion hc
  | cons x l =>
    rw [hd] at hc
    show listStarts ['[', 'W', 'A', 'R', 'N', ']'] (x :: l) = false
    unfold listStarts
    refine if_neg (fun hc2 => h ?_)
    have hx : x = c := by injection hc
    exact hx.symm.trans hc2.symm

theorem head_append (a b : String) (c : Char) (h : a.data.head? = some c) :
    (a ++ b).data.head? = some c := by
  rw [str_data_append]
  cases hd : a.data with
  | nil => rw [hd] at h; exact Option.noConfusion h
  | cons x l =>
    rw [hd] at h
    simpa using h

/-- No line printed by the `recover` branch is a `Logger.warn` line. -/
theorem recoverOutput_no_warn (h : String → Nat) (stdout : String) :
    ∀ line ∈ recoverOutput h stdout, isWarnLine line = false := by
  intro line hline
  simp only [recoverOutput] at hline
  rcases List.mem_append.mp hline with h1 | h2
  · rcases List.mem_append.mp h1 with h3 | h4
    · rcases List.mem_append.mp h3 with h5 | h6
      · rcases List.mem_cons.mp h5 with rfl | h5b
        · decide
        · rcases List.mem_singleton.mp h5b with rfl
          exact isWarnLine_false_of_head _ 'F'
            (head_append _ _ _ (head_append _ _ _ rfl)) (by decide)
      · obtain ⟨g, _, hEq⟩ := List.mem_map.mp h6
        rw [← hEq]
        exact isWarnLine_false_of_head _ ' '
          (head_append _ _ _ (head_append _ _ _ (head_append _ _ _ rfl))) (by decide)
    · obtain ⟨l2, hl2, hmem⟩ := List.mem_flatten.mp h4
      obtain ⟨g, _, hgl⟩ := List.mem_map.mp hl2
      rw [← hgl] at hmem
      rcases List.mem_cons.mp hmem with rfl | hm2
      · exact isWarnLine_false_of_head _ '\n' (head_append _ _ _ rfl) (by decide)
      · rcases List.mem_singleton.mp hm2 with rfl
        exact isWarnLine_false_of_head _ '✓'
          (head_append _ _ _ (head_append _ _ _ (head_append _ _ _ rfl))) (by decide)
  · rcases List.mem_cons.mp h2 with rfl | h2b
    · exact isWarnLine_false_of_head _ '\n'
        (head_append _ _ _ (head_append _ _ _ rfl)) (by decide)
    · rcases List.mem_singleton.mp h2b with rfl
      decide

/-- C4 (amended): for every fixed set of live namespace names, `recover`
persists, for each inferred VPC, the record built by `recoverConfig`:
`dev`, `prod` and `test` always receive `10.0.0.0/16`, `10.1.0.0/16` and
`10.2.0.0/16`, while every other name receives
`10.(hash(name) mod 254).0.0/16` where `hash` is the process string hash
(NOT stable across runs); no warning about approximate addressing - or any
warning at all - is emitted. -/
theorem recover_cidr_assignment (h : String → Nat) (stdout : String) (st : Store)
    (name : String) (subs : List (String × String))
    (hmem : (name, subs) ∈ groupNamespaces (recoverLines stdout)) :
    lookupKey (recoverStore h stdout st) name = some (recoverConfig h name subs) ∧
    lookupKey (recoverConfig h name subs).top "cidr" = some (recoverCidr h name) ∧
    recoverCidr h "dev" = "10.0.0.0/16" ∧
    recoverCidr h "prod" = "10.1.0.0/16" ∧
    recoverCidr h "test" = "10.2.0.0/16" ∧
    (name ≠ "dev" → name ≠ "prod" → name ≠ "test" →
      recoverCidr h name = "10." ++ natToStr (h name % 254) ++ ".0.0/16") ∧
    (∀ line ∈ recoverOutput h stdout, isWarnLine line = false) := by
  refine ⟨?_, ?_, rfl, rfl, rfl, ?_, recoverOutput_no_warn h stdout⟩
  · exact lookupKey_foldl_setKey_mem h _ st name subs hmem
      (groupNamespaces_nodup (recoverLines stdout))
  · simp [recoverConfig, lookupKey]
  · intro h1 h2 h3
    simp [recoverCidr, h1, h2, h3]

theorem recover_cidr_assignment_witness :
    lookupKey (recoverStore (fun _ => 3) "dev-web\nfoo-bar" []) "foo" =
      some (recoverConfig (fun _ => 3) "foo" [("bar", "foo-bar")]) ∧
    lookupKey (recoverConfig (fun _ => 3) "foo" [("bar", "foo-bar")]).top "cidr" =
      some (recoverCidr (fun _ => 3) "foo") ∧
    recoverCidr (fun _ => 3) "dev" = "10.0.0.0/16" ∧
    recoverCidr (fun _ => 3) "prod" = "10.1.0.0/16" ∧
    recoverCidr (fun _ => 3) "test" = "10.2.0.0/16" ∧
    (("foo" : String) ≠ "dev" → ("foo" : String) ≠ "prod" → ("foo" : String) ≠ "test" →
      recoverCidr (fun _ => 3) "foo" = "10." ++ natToStr ((fun _ => 3) "foo" % 254) ++ ".0.0/16") ∧
    (∀ line ∈ recoverOutput (fun _ => 3) "dev-web\nfoo-bar", isWarnLine line = false) :=
  recover_cidr_assignment (fun _ => 3) "dev-web\nfoo-bar" [] "foo" [("bar", "foo-bar")]
    (by decide)

/-- `recover` derives the CIDR of an unrecognized VPC name from the process
string hash (different hash seed, different persisted CIDR) and prints no
warning while doing so. -/
theorem recover_hash_dependent_no_warning_cex :
    (lookupKey (recoverStore (fun _ => 5) "foo-web" []) "foo").map
        (fun cfg => lookupKey cfg.top "cidr") = some (some "10.5.0.0/16") ∧
    (lookupKey (recoverStore (fun _ => 6) "foo-web" []) "foo").map
        (fun cfg => lookupKey cfg.top "cidr") = some (some "10.6.0.0/16") ∧
    ("10.5.0.0/16" : String) ≠ "10.6.0.0/16" ∧
    (recoverOutput (fun _ => 5) "foo-web").all (fun l => !isWarnLine l) = true := by
  refine ⟨rfl, rfl, by decide, by decide⟩

theorem veth_link_names_witness :
    (∀ s : String, vethHostName s = "veth-" ++ s) ∧
    (∀ s : String, vethNsName s = "v" ++ strTake s 10) ∧
    subnetField longV2 "websubnetname1" "veth_host" = some (vethHostName "websubnetname1") ∧
    longTr[1]? = some ("ip link add " ++ vethHostName "websubnetname1" ++
      " type veth peer name " ++ vethNsName "websubnetname1", tolOpts) ∧
    vethNsName "abcdefghijk1" = vethNsName "abcdefghijk2" ∧
    ("abcdefghijk1" : String) ≠ "abcdefghijk2" :=
  veth_link_names (mkVPC "p" "10.0.0.0/16") "websubnetname1" "10.0.1.0/24" "public"
    execAllOk [] longV2 _ longTr rfl

theorem recoverSubnetEntries_fields (vn : String) (subs : List (String × String)) :
    ∀ k s fl, (s, fl) ∈ recoverSubnetEntries vn k subs →
      lookupKey fl "cidr" ≠ none ∧ lookupKey fl "type" ≠ none ∧
      lookupKey fl "namespace" ≠ none ∧ lookupKey fl "ip" ≠ none ∧
      lookupKey fl "veth_host" = none := by
  induction subs with
  | nil => intro k s fl hm; cases hm
  | cons p rest ih =>
    intro k s fl hm
    obtain ⟨sn0, ns0⟩ := p
    rcases List.mem_cons.mp hm with heq | hm2
    · have hfl := congrArg Prod.snd heq
      simp only at hfl
      subst hfl
      refine ⟨by simp [lookupKey], by simp [lookupKey], by simp [lookupKey],
        by simp [lookupKey], by simp [lookupKey]⟩
    · exact ih (k + 1) s fl hm2

/-- C8 (amended): a record written by `save_config` (after create or
add_subnet) contains the top-level fields name, cidr and bridge, and the
subnet entry written by `add_subnet` contains cidr, type, namespace,
veth_host and ip; a record written by `recover` contains only name and
cidr at top level (no bridge) and its subnet entries contain cidr, type,
namespace and ip but NO veth_host. -/
theorem persisted_record_fields (v : VPC) (sn c ty : String) (exec : Executor) (st : Store)
    (v2 : VPC) (st2 : Store) (tr : Trace) (h : String → Nat) (name : String)
    (subs : List (String × String))
    (hadd : v.add_subnet sn c ty exec st = .ok (v2, st2, tr)) :
    (lookupKey v2.save_config.top "name" = some v2.name ∧
      lookupKey v2.save_config.top "cidr" = some v2.cidr ∧
      lookupKey v2.save_config.top "bridge" = some v2.bridge) ∧
    (subnetField v2 sn "cidr" ≠ none ∧ subnetField v2 sn "type" ≠ none ∧
      subnetField v2 sn "namespace" ≠ none ∧ subnetField v2 sn "veth_host" ≠ none ∧
      subnetField v2 sn "ip" ≠ none) ∧
    (lookupKey (recoverConfig h name subs).top "name" = some name ∧
      lookupKey (recoverConfig h name subs).top "cidr" = some (recoverCidr h name) ∧
      lookupKey (recoverConfig h name subs).top "bridge" = none) ∧
    (∀ s fl, (s, fl) ∈ (recoverConfig h name subs).subnets →
      lookupKey fl "cidr" ≠ none ∧ lookupKey fl "type" ≠ none ∧
      lookupKey fl "namespace" ≠ none ∧ lookupKey fl "ip" ≠ none ∧
      lookupKey fl "veth_host" = none) := by
  obtain ⟨sip, gw, _, _, hv2, _, _⟩ := add_subnet_ok_inv hadd
  subst hv2
  refine ⟨⟨?_, ?_, ?_⟩, ?_, ⟨?_, ?_, ?_⟩, ?_⟩
  · simp [VPC.save_config, lookupKey]
  · simp [VPC.save_config, lookupKey]
  · simp [VPC.save_config, lookupKey]
  · refine ⟨?_, ?_, ?_, ?_, ?_⟩ <;>
      simp [subnetField, addSubnetResult, lookupKey_setKey_self, subnetFields, lookupKey]
  · simp [recoverConfig, lookupKey]
  · simp [recoverConfig, lookupKey]
  · simp [recoverConfig, lookupKey]
  · intro s fl hm
    exact recoverSubnetEntries_fields name subs 1 s fl hm

theorem persisted_record_fields_witness :
    (lookupKey addOnceV1.save_config.top "name" = some addOnceV1.name ∧
      lookupKey addOnceV1.save_config.top "cidr" = some addOnceV1.cidr ∧
      lookupKey addOnceV1.save_config.top "bridge" = some addOnceV1.bridge) ∧
    (subnetField addOnceV1 "web" "cidr" ≠ none ∧ subnetField addOnceV1 "web" "type" ≠ none ∧
      subnetField addOnceV1 "web" "namespace" ≠ none ∧
      subnetField addOnceV1 "web" "veth_host" ≠ none ∧
      subnetField addOnceV1 "web" "ip" ≠ none) ∧
    (lookupKey (recoverConfig (fun _ => 0) "foo" [("bar", "foo-bar")]).top "name" = some "foo" ∧
      lookupKey (recoverConfig (fun _ => 0) "foo" [("bar", "foo-bar")]).top "cidr" =
        some (recoverCidr (fun _ => 0) "foo") ∧
      lookupKey (recoverConfig (fun _ => 0) "foo" [("bar", "foo-bar")]).top "bridge" = none) ∧
    (∀ s fl, (s, fl) ∈ (recoverConfig (fun _ => 0) "foo" [("bar", "foo-bar")]).subnets →
      lookupKey fl "cidr" ≠ none ∧ lookupKey fl "type" ≠ none ∧
      lookupKey fl "namespace" ≠ none ∧ lookupKey fl "ip" ≠ none ∧
      lookupKey fl "veth_host" = none) :=
  persisted_record_fields (mkVPC "vpc1" "10.5.0.0/16") "web" "10.5.1.0/24" "public"
    execAllOk [] addOnceV1 _ _ (fun _ => 0) "foo" [("bar", "foo-bar")] rfl

/-- A record persisted by `recover` (here for the live namespace
`myvpc-web`) has no `bridge` field and its subnet entry has no `veth_host`
field. -/
theorem recover_record_missing_fields_cex :
    lookupKey (recoverStore (fun _ => 0) "myvpc-web" []) "myvpc" =
      some (recoverConfig (fun _ => 0) "myvpc" [("web", "myvpc-web")]) ∧
    lookupKey (recoverConfig (fun _ => 0) "myvpc" [("web", "myvpc-web")]).top "bridge" = none ∧
    (lookupKey (recoverConfig (fun _ => 0) "myvpc" [("web", "myvpc-web")]).subnets "web").bind
      (fun fl => lookupKey fl "veth_host") = none ∧
    lookupKey (recoverConfig (fun _ => 0) "myvpc" [("web", "myvpc-web")]).subnets "web" ≠
      none := by
  refine ⟨rfl, rfl, rfl, by decide⟩

end Vpcctl

